import Mathlib

/-!
Shallow embedding of `cert-manager-webhook-dode` (src/main.go).

The repository is a cert-manager ACME DNS-01 webhook solver for the do.de
DNS provider.  The core logic lives in six functions of `src/main.go`:
`loadConfig`, `getAPIKey`, `makeRequest`, `Present`, `CleanUp` and
`removeDOT`.  We embed them as pure Lean functions; the external
collaborators (the JSON decoder of the standard library, the Kubernetes
secret store and the HTTP transport) are passed in explicitly:

* the JSON config decoder (`encoding/json.Unmarshal` into
  `dodeDNSProviderConfig`) becomes a function
  `String → Except String dodeDNSProviderConfig`;
* the Kubernetes secret client becomes `KubeClient`, a read-only lookup
  `namespace → name → Option Secret` (`none` models the NotFound error of
  the API server, as in the spec's store contract
  `get(namespace, name) -> record | NotFound`);
* the HTTP side becomes a `Provider σ`: a step function from a provider
  state and a request URL to a new state and an `HttpResult` (transport
  error, or a status code together with the result of decoding the
  response body into `APIResponse`).  Threading the state makes request
  logs and idempotence statable; every request issued through it is a GET,
  matching `client.Get` in `makeRequest`.

Go strings are Lean `String`s; `[]byte` secret data is modelled as the
string it is decoded to by `string(secBytes)`.
-/

namespace Dode

/-- `strings.HasSuffix s suffix` from the Go standard library:
`suffix` is a suffix of `s`. -/
def hasSuffix (s suffix : String) : Bool :=
  decide (suffix.data <:+ s.data)

/-- `strings.TrimSuffix s suffix` from the Go standard library: returns
`s` without the provided trailing `suffix` string, unchanged if `s` does
not end in `suffix`. -/
def trimSuffix (s suffix : String) : String :=
  if hasSuffix s suffix then String.mk (s.data.take (s.data.length - suffix.data.length))
  else s

/-- `DodeAPIURL` (main.go line 46): the fixed API endpoint to call. -/
def DodeAPIURL : String := "https://www.do.de/api/letsencrypt"

/-- `cmmeta.SecretKeySelector`: reference to a key of a named secret. -/
structure SecretKeySelector where
  Name : String
  Key : String
deriving DecidableEq

/-- `dodeDNSProviderConfig` (main.go lines 70-72). -/
structure dodeDNSProviderConfig where
  APITokenSecretRef : SecretKeySelector
deriving DecidableEq

/-- The zero value `dodeDNSProviderConfig\x7b\x7d` of Go (all string
fields empty). -/
def zeroConfig : dodeDNSProviderConfig := ⟨⟨"", ""⟩⟩

/-- A Kubernetes `Secret`: its `Data` field maps keys to byte content
(modelled decoded, as strings). -/
structure Secret where
  Data : List (String × String)
deriving DecidableEq

/-- The read-only part of the Kubernetes clientset used by the solver:
`getSecret namespace name` models
`client.CoreV1().Secrets(namespace).Get(ctx, name, ...)`, with `none`
for the API server's NotFound error. -/
structure KubeClient where
  getSecret : String → String → Option Secret

/-- `dodeDNSProviderSolver` (main.go lines 52-54). -/
structure dodeDNSProviderSolver where
  client : KubeClient

/-- `v1alpha1.ChallengeRequest`, the fields used by the solver:
`Config` is the raw provider-specific JSON payload (`none` models a nil
`*extapi.JSON`), `ResolvedFQDN` the challenge domain (possibly
dot-terminated), `Key` the TXT record value, `ResourceNamespace` the
namespace for the secret lookup. -/
structure ChallengeRequest where
  Config : Option String
  ResolvedFQDN : String
  Key : String
  ResourceNamespace : String

/-- `APIResponse` (main.go lines 191-194): decoded provider response. -/
structure APIResponse where
  Success : Bool
  Error : String
deriving DecidableEq

/-- Outcome of one HTTP GET against the provider: either the transport
fails (`client.Get` returns an error), or a response arrives with a
status code and a body; the body field holds the result of decoding the
body as `APIResponse` (`.error` = JSON decoder failure with its message). -/
inductive HttpResult where
  | transportError (msg : String)
  | response (status : Nat) (body : Except String APIResponse)

/-- The DNS provider's HTTP endpoint, modelled as a state machine: `step`
takes the provider state and the full request URL and yields the new
state and the `HttpResult` observed by the client. -/
structure Provider (σ : Type) where
  step : σ → String → σ × HttpResult

/-- `removeDOT` (main.go lines 221-226): strips one trailing root-zone
dot from the FQDN if present. -/
def removeDOT (fqdnURL : String) : String :=
  if hasSuffix fqdnURL "." then trimSuffix fqdnURL "."
  else fqdnURL

/-- `loadConfig` (main.go lines 154-165).  `unmarshal` stands for
`json.Unmarshal` into the typed config struct; a nil payload yields the
zero-value config, a decoder failure is wrapped as
`error decoding solver config: ...`. -/
def loadConfig (unmarshal : String → Except String dodeDNSProviderConfig)
    (cfgJSON : Option String) : Except String dodeDNSProviderConfig :=
  match cfgJSON with
  | none => .ok zeroConfig
  | some raw =>
    match unmarshal raw with
    | .error e => .error ("error decoding solver config: " ++ e)
    | .ok cfg => .ok cfg

/-- `getAPIKey` (main.go lines 168-186): fetch the DODE API key from the
named Kubernetes secret. -/
def getAPIKey (c : dodeDNSProviderSolver) (cfg : dodeDNSProviderConfig)
    (ns : String) : Except String String :=
  let secretName := cfg.APITokenSecretRef.Name
  match c.client.getSecret ns secretName with
  | none =>
    .error ("unable to get secret `" ++ secretName ++ "`; secrets \"" ++
      secretName ++ "\" not found")
  | some sec =>
    match sec.Data.lookup cfg.APITokenSecretRef.Key with
    | none =>
      .error ("key \"" ++ cfg.APITokenSecretRef.Key ++ "\" not found in secret \"" ++
        cfg.APITokenSecretRef.Name ++ "/" ++ ns ++ "\"")
    | some secBytes => .ok secBytes

/-- `makeRequest` (main.go lines 188-219): issue one GET against the
provider and map the response to a success/failure outcome. -/
def makeRequest {σ : Type} (p : Provider σ) (s : σ) (method uri : String) :
    σ × Except String Bool :=
  let url := DodeAPIURL ++ uri
  match p.step s url with
  | (s2, .transportError e) =>
    (s2, .error ("Error querying DODE API for " ++ method ++ " \"" ++ url ++ "\" -> " ++ e))
  | (s2, .response _status (.error e)) => (s2, .error e)
  | (s2, .response _status (.ok r)) =>
    if !r.Success then
      (s2, .error ("DODE API error for " ++ method ++ " \"" ++ uri ++ "\" " ++ r.Error))
    else (s2, .ok r.Success)

/-- The query string built by `Present` (main.go line 99):
`fmt.Sprintf("?token=%s&domain=%s&value=%s", apiKey, domain, value)`. -/
def presentQuery (token domain value : String) : String :=
  "?token=" ++ token ++ "&domain=" ++ domain ++ "&value=" ++ value

/-- The query string built by `CleanUp` (main.go line 124):
`fmt.Sprintf("?token=%s&domain=%s&action=delete", apiKey, domain)`. -/
def cleanUpQuery (token domain : String) : String :=
  "?token=" ++ token ++ "&domain=" ++ domain ++ "&action=delete"

/-- `Present` (main.go lines 88-105). -/
def Present {σ : Type} (c : dodeDNSProviderSolver)
    (unmarshal : String → Except String dodeDNSProviderConfig)
    (p : Provider σ) (s : σ) (ch : ChallengeRequest) : σ × Except String Unit :=
  match loadConfig unmarshal ch.Config with
  | .error e => (s, .error e)
  | .ok cfg =>
    match getAPIKey c cfg ch.ResourceNamespace with
    | .error e => (s, .error e)
    | .ok apiKey =>
      match makeRequest p s "GET" (presentQuery apiKey (removeDOT ch.ResolvedFQDN) ch.Key) with
      | (s2, .error e) => (s2, .error e)
      | (s2, .ok _) => (s2, .ok ())

/-- `CleanUp` (main.go lines 113-130). -/
def CleanUp {σ : Type} (c : dodeDNSProviderSolver)
    (unmarshal : String → Except String dodeDNSProviderConfig)
    (p : Provider σ) (s : σ) (ch : ChallengeRequest) : σ × Except String Unit :=
  match loadConfig unmarshal ch.Config with
  | .error e => (s, .error e)
  | .ok cfg =>
    match getAPIKey c cfg ch.ResourceNamespace with
    | .error e => (s, .error e)
    | .ok apiKey =>
      match makeRequest p s "GET" (cleanUpQuery apiKey (removeDOT ch.ResolvedFQDN)) with
      | (s2, .error e) => (s2, .error e)
      | (s2, .ok _) => (s2, .ok ())

/-! ### Auxiliary notions used by the theorems -/

/-- A provider behaves idempotently when repeating a request from the
state it produced changes nothing: the second identical request yields
the same state and the same response. -/
def ProviderIdempotent {σ : Type} (p : Provider σ) : Prop :=
  ∀ s url, p.step (p.step s url).1 url = p.step s url

/-- A provider over a request log: every issued URL is appended to the
log, and the response is a fixed function of the URL.  Used to observe
which requests an operation issues. -/
def recorder (f : String → HttpResult) : Provider (List String) :=
  ⟨fun log url => (log ++ [url], f url)⟩

/-- A provider with trivial state returning the same result for every
request. -/
def constProvider (r : HttpResult) : Provider Unit :=
  ⟨fun s _ => (s, r)⟩

/-! ### Concrete fixtures (used by witnesses and counterexamples) -/

/-- A concrete provider config naming secret `dode-secret`, key
`api-token`. -/
def cfgW : dodeDNSProviderConfig := ⟨⟨"dode-secret", "api-token"⟩⟩

/-- A JSON decoder that accepts any payload as `cfgW`. -/
def unmarshalW : String → Except String dodeDNSProviderConfig :=
  fun _ => .ok cfgW

/-- A JSON decoder that rejects any payload, as `json.Unmarshal` does on
malformed input. -/
def badUnmarshal : String → Except String dodeDNSProviderConfig :=
  fun _ => .error "invalid character"

/-- A secret holding the API token under key `api-token`. -/
def secretW : Secret := ⟨[("api-token", "tok123")]⟩

/-- A secret with no data keys at all. -/
def emptySecret : Secret := ⟨[]⟩

/-- A solver whose store has `dode-secret` in namespace `default`. -/
def solverW : dodeDNSProviderSolver :=
  ⟨⟨fun ns name =>
    if ns = "default" ∧ name = "dode-secret" then some secretW else none⟩⟩

/-- A solver whose store has no secrets. -/
def solverNone : dodeDNSProviderSolver := ⟨⟨fun _ _ => none⟩⟩

/-- A solver whose store returns a secret lacking the requested key. -/
def solverNoKey : dodeDNSProviderSolver := ⟨⟨fun _ _ => some emptySecret⟩⟩

/-- A concrete challenge request. -/
def chW : ChallengeRequest :=
  ⟨some "cfg", "_acme-challenge.example.com.", "txtvalue", "default"⟩

/-- Provider that always answers `success=true`. -/
def provOK : Provider Unit := constProvider (.response 200 (.ok ⟨true, ""⟩))

/-- Provider that always answers `success=false, error=rate limited`. -/
def provRejected : Provider Unit :=
  constProvider (.response 200 (.ok ⟨false, "rate limited"⟩))

/-- Provider whose transport always fails. -/
def provTransport : Provider Unit :=
  constProvider (.transportError "connection refused")

/-- Provider whose response body never decodes as JSON. -/
def provDecode : Provider Unit :=
  constProvider (.response 200 (.error "unexpected EOF"))

/-- A recording provider answering `success=true` to everything. -/
def recOK : Provider (List String) :=
  recorder (fun _ => .response 200 (.ok ⟨true, ""⟩))

/-- Provider answering `success=true` with HTTP status 404. -/
def prov404 : Provider Unit := constProvider (.response 404 (.ok ⟨true, ""⟩))

/-! ### Basic lemmas about the string helpers -/

theorem hasSuffix_iff (s suffix : String) :
    hasSuffix s suffix = true ↔ suffix.data <:+ s.data := by
  simp [hasSuffix]

theorem data_append (a b : String) : (a ++ b).data = a.data ++ b.data :=
  String.data_append a b

theorem removeDOT_append_dot (d : String) : removeDOT (d ++ ".") = d := by
  have hsuf : hasSuffix (d ++ ".") "." = true := by
    rw [hasSuffix_iff, data_append]
    exact List.suffix_append d.data ".".data
  have hdata : (d ++ ".").data = d.data ++ ['.'] := data_append d "."
  rw [removeDOT, hsuf, if_pos rfl, trimSuffix, hsuf, if_pos rfl, hdata]
  have hlen : (d.data ++ ['.']).length - ".".data.length = d.data.length := by
    simp
  rw [hlen, List.take_left]

theorem removeDOT_of_hasSuffix_false (d : String) (h : hasSuffix d "." = false) :
    removeDOT d = d := by
  rw [removeDOT, h]
  simp

theorem removeDOT_data_eq (d : String) (t : List Char) (ht : d.data = t ++ ['.']) :
    removeDOT d = String.mk t := by
  have hsuf : hasSuffix d "." = true := by
    rw [hasSuffix_iff, ht]
    exact List.suffix_append t ['.']
  rw [removeDOT, hsuf, if_pos rfl, trimSuffix, hsuf, if_pos rfl, ht]
  have hlen : (t ++ ['.']).length - ".".data.length = t.length := by simp
  rw [hlen, List.take_left]

/-- C3: the domain normalization strips one trailing root-zone dot
(`removeDOT (d ++ ".") = d` for every string `d`), and it is idempotent
on every string that does not end in two consecutive dots.  (Unrestricted
idempotence fails, see the counterexample.) -/
theorem removeDOT_strip_and_idem :
    (∀ d : String, removeDOT (d ++ ".") = d) ∧
    (∀ d : String, hasSuffix d ".." = false →
      removeDOT (removeDOT d) = removeDOT d) := by
  constructor
  · exact removeDOT_append_dot
  · intro d h
    cases hd : hasSuffix d "." with
    | false =>
      rw [removeDOT_of_hasSuffix_false d hd]
      exact removeDOT_of_hasSuffix_false d hd
    | true =>
      obtain ⟨t, ht⟩ := (hasSuffix_iff d ".").mp hd
      have ht' : d.data = t ++ ['.'] := ht.symm
      rw [removeDOT_data_eq d t ht']
      cases hsuf2 : hasSuffix (String.mk t) "." with
      | false => exact removeDOT_of_hasSuffix_false _ hsuf2
      | true =>
        exfalso
        obtain ⟨u, hu⟩ := (hasSuffix_iff (String.mk t) ".").mp hsuf2
        have hu' : u ++ ['.'] = t := hu
        have hdd : hasSuffix d ".." = true := by
          rw [hasSuffix_iff]
          refine ⟨u, ?_⟩
          rw [ht', ← hu']
          show u ++ ['.', '.'] = u ++ ['.'] ++ ['.']
          simp
        rw [h] at hdd
        exact Bool.false_ne_true hdd

/-- C3 counterexample: `removeDOT` is not idempotent in general; on
`"a.."` it first yields `"a."` and then `"a"`. -/
theorem removeDOT_not_idempotent :
    ¬ (removeDOT (removeDOT "a..") = removeDOT "a..") := by decide

/-- C3 witness: the amended theorem applied at the concrete domain
`"sub.example.com"`. -/
theorem removeDOT_strip_and_idem_witness :
    removeDOT ("sub.example.com" ++ ".") = "sub.example.com" ∧
    hasSuffix "sub.example.com" ".." = false ∧
    removeDOT (removeDOT "sub.example.com") = removeDOT "sub.example.com" :=
  ⟨removeDOT_strip_and_idem.1 "sub.example.com", by decide,
    removeDOT_strip_and_idem.2 "sub.example.com" (by decide)⟩

/-! ### Infix and head helpers on string data -/

theorem isInfix_data_left (x a b : String) (h : x.data <:+: a.data) :
    x.data <:+: (a ++ b).data := by
  rw [data_append]
  exact h.trans (List.prefix_append a.data b.data).isInfix

theorem isInfix_data_right (x a b : String) (h : x.data <:+: b.data) :
    x.data <:+: (a ++ b).data := by
  rw [data_append]
  exact h.trans (List.suffix_append a.data b.data).isInfix

theorem isInfix_data_refl (x : String) : x.data <:+: x.data :=
  List.infix_refl x.data

theorem head_append (c : Char) (l₁ l₂ : List Char) (h : l₁.head? = some c) :
    (l₁ ++ l₂).head? = some c := by
  cases l₁ with
  | nil => simp at h
  | cons a t => simpa using h

/-! ### C5: loadConfig -/

/-- C5: a nil configuration payload yields the zero-value configuration
with no error, and a payload the JSON decoder rejects yields the wrapped
decode error instead of a configuration. -/
theorem loadConfig_base_and_decode_error :
    (∀ unmarshal, loadConfig unmarshal none = .ok zeroConfig) ∧
    (∀ unmarshal raw e, unmarshal raw = .error e →
      loadConfig unmarshal (some raw) =
        .error ("error decoding solver config: " ++ e)) := by
  constructor
  · intro u
    rfl
  · intro u raw e h
    simp [loadConfig, h]

/-- C5 witness: the theorem applied to a decoder that rejects the
concrete payload `notjson`. -/
theorem loadConfig_base_and_decode_error_witness :
    loadConfig badUnmarshal none = .ok zeroConfig ∧
    badUnmarshal "notjson" = .error "invalid character" ∧
    loadConfig badUnmarshal (some "notjson") =
      .error ("error decoding solver config: " ++ "invalid character") :=
  ⟨loadConfig_base_and_decode_error.1 badUnmarshal, rfl,
    loadConfig_base_and_decode_error.2 badUnmarshal "notjson" "invalid character" rfl⟩

/-! ### C4: getAPIKey -/

/-- C4: credential resolution fails with a record-not-found error wrapped
with the secret name when the secret is absent; with a distinct
key-not-found error wrapped with the key and the secret name when the
secret exists but lacks the key; and returns the field content on
success. -/
theorem getAPIKey_spec (cfg : dodeDNSProviderConfig) (ns : String) :
    (∀ c : dodeDNSProviderSolver,
      c.client.getSecret ns cfg.APITokenSecretRef.Name = none →
      ∃ m, getAPIKey c cfg ns = .error m ∧
        cfg.APITokenSecretRef.Name.data <:+: m.data) ∧
    (∀ (c : dodeDNSProviderSolver) (sec : Secret),
      c.client.getSecret ns cfg.APITokenSecretRef.Name = some sec →
      sec.Data.lookup cfg.APITokenSecretRef.Key = none →
      ∃ m, getAPIKey c cfg ns = .error m ∧
        cfg.APITokenSecretRef.Key.data <:+: m.data ∧
        cfg.APITokenSecretRef.Name.data <:+: m.data) ∧
    (∀ (c c' : dodeDNSProviderSolver) (sec : Secret) (m₁ m₂ : String),
      c.client.getSecret ns cfg.APITokenSecretRef.Name = none →
      c'.client.getSecret ns cfg.APITokenSecretRef.Name = some sec →
      sec.Data.lookup cfg.APITokenSecretRef.Key = none →
      getAPIKey c cfg ns = .error m₁ →
      getAPIKey c' cfg ns = .error m₂ →
      m₁ ≠ m₂) ∧
    (∀ (c : dodeDNSProviderSolver) (sec : Secret) (v : String),
      c.client.getSecret ns cfg.APITokenSecretRef.Name = some sec →
      sec.Data.lookup cfg.APITokenSecretRef.Key = some v →
      getAPIKey c cfg ns = .ok v) := by
  refine ⟨?_, ?_, ?_, ?_⟩
  · intro c hnone
    refine ⟨"unable to get secret `" ++ cfg.APITokenSecretRef.Name ++
      "`; secrets \"" ++ cfg.APITokenSecretRef.Name ++ "\" not found",
      by simp [getAPIKey, hnone], ?_⟩
    apply isInfix_data_left
    apply isInfix_data_left
    apply isInfix_data_left
    apply isInfix_data_right
    exact isInfix_data_refl _
  · intro c sec hsec hkey
    refine ⟨"key \"" ++ cfg.APITokenSecretRef.Key ++ "\" not found in secret \"" ++
      cfg.APITokenSecretRef.Name ++ "/" ++ ns ++ "\"",
      by simp [getAPIKey, hsec, hkey], ?_, ?_⟩
    · apply isInfix_data_left
      apply isInfix_data_left
      apply isInfix_data_left
      apply isInfix_data_left
      apply isInfix_data_left
      apply isInfix_data_right
      exact isInfix_data_refl _
    · apply isInfix_data_left
      apply isInfix_data_left
      apply isInfix_data_left
      apply isInfix_data_right
      exact isInfix_data_refl _
  · intro c c' sec m₁ m₂ hnone hsec hkey hm₁ hm₂ heq
    simp [getAPIKey, hnone] at hm₁
    simp [getAPIKey, hsec, hkey] at hm₂
    have h₁ : m₁.data.head? = some 'u' := by
      rw [← hm₁]
      simp only [data_append, List.append_assoc]
      apply head_append
      decide
    have h₂ : m₂.data.head? = some 'k' := by
      rw [← hm₂]
      simp only [data_append, List.append_assoc]
      apply head_append
      decide
    rw [heq, h₂] at h₁
    simp at h₁
  · intro c sec v hsec hkey
    simp [getAPIKey, hsec, hkey]

/-- C4 witness: the theorem applied to concrete stores — one missing the
secret, one missing only the key, one holding the token. -/
theorem getAPIKey_spec_witness :
    (∃ m, getAPIKey solverNone cfgW "default" = .error m ∧
      cfgW.APITokenSecretRef.Name.data <:+: m.data) ∧
    (∃ m, getAPIKey solverNoKey cfgW "default" = .error m ∧
      cfgW.APITokenSecretRef.Key.data <:+: m.data ∧
      cfgW.APITokenSecretRef.Name.data <:+: m.data) ∧
    ("unable to get secret `" ++ "dode-secret" ++ "`; secrets \"" ++
        "dode-secret" ++ "\" not found" : String) ≠
      ("key \"" ++ "api-token" ++ "\" not found in secret \"" ++
        "dode-secret" ++ "/" ++ "default" ++ "\"") ∧
    getAPIKey solverW cfgW "default" = .ok "tok123" :=
  ⟨(getAPIKey_spec cfgW "default").1 solverNone rfl,
    (getAPIKey_spec cfgW "default").2.1 solverNoKey emptySecret rfl rfl,
    (getAPIKey_spec cfgW "default").2.2.1 solverNone solverNoKey emptySecret
      _ _ rfl rfl rfl rfl rfl,
    (getAPIKey_spec cfgW "default").2.2.2 solverW secretW "tok123" rfl rfl⟩

/-! ### Branch characterizations of makeRequest, Present and CleanUp -/

theorem makeRequest_transport {σ : Type} {p : Provider σ} {s s' : σ} {m uri e : String}
    (h : p.step s (DodeAPIURL ++ uri) = (s', .transportError e)) :
    makeRequest p s m uri =
      (s', .error ("Error querying DODE API for " ++ m ++ " \"" ++
        (DodeAPIURL ++ uri) ++ "\" -> " ++ e)) := by
  simp [makeRequest, h]

theorem makeRequest_decode {σ : Type} {p : Provider σ} {s s' : σ} {m uri e : String}
    {st : Nat} (h : p.step s (DodeAPIURL ++ uri) = (s', .response st (.error e))) :
    makeRequest p s m uri = (s', .error e) := by
  simp [makeRequest, h]

theorem makeRequest_rejected {σ : Type} {p : Provider σ} {s s' : σ} {m uri : String}
    {st : Nat} {r : APIResponse}
    (h : p.step s (DodeAPIURL ++ uri) = (s', .response st (.ok r)))
    (hr : r.Success = false) :
    makeRequest p s m uri =
      (s', .error ("DODE API error for " ++ m ++ " \"" ++ uri ++ "\" " ++ r.Error)) := by
  simp [makeRequest, h, hr]

theorem makeRequest_success {σ : Type} {p : Provider σ} {s s' : σ} {m uri : String}
    {st : Nat} {r : APIResponse}
    (h : p.step s (DodeAPIURL ++ uri) = (s', .response st (.ok r)))
    (hr : r.Success = true) :
    makeRequest p s m uri = (s', .ok true) := by
  simp [makeRequest, h, hr]

theorem Present_loadConfig_error {σ : Type} {c : dodeDNSProviderSolver}
    {u : String → Except String dodeDNSProviderConfig} {p : Provider σ} {s : σ}
    {ch : ChallengeRequest} {e : String} (h : loadConfig u ch.Config = .error e) :
    Present c u p s ch = (s, .error e) := by
  simp [Present, h]

theorem Present_getAPIKey_error {σ : Type} {c : dodeDNSProviderSolver}
    {u : String → Except String dodeDNSProviderConfig} {p : Provider σ} {s : σ}
    {ch : ChallengeRequest} {cfg : dodeDNSProviderConfig} {e : String}
    (hc : loadConfig u ch.Config = .ok cfg)
    (hk : getAPIKey c cfg ch.ResourceNamespace = .error e) :
    Present c u p s ch = (s, .error e) := by
  simp [Present, hc, hk]

theorem Present_request_error {σ : Type} {c : dodeDNSProviderSolver}
    {u : String → Except String dodeDNSProviderConfig} {p : Provider σ} {s s2 : σ}
    {ch : ChallengeRequest} {cfg : dodeDNSProviderConfig} {apiKey e : String}
    (hc : loadConfig u ch.Config = .ok cfg)
    (hk : getAPIKey c cfg ch.ResourceNamespace = .ok apiKey)
    (hmr : makeRequest p s "GET" (presentQuery apiKey (removeDOT ch.ResolvedFQDN) ch.Key) =
      (s2, .error e)) :
    Present c u p s ch = (s2, .error e) := by
  simp [Present, hc, hk, hmr]

theorem Present_request_ok {σ : Type} {c : dodeDNSProviderSolver}
    {u : String → Except String dodeDNSProviderConfig} {p : Provider σ} {s s2 : σ}
    {ch : ChallengeRequest} {cfg : dodeDNSProviderConfig} {apiKey : String} {b : Bool}
    (hc : loadConfig u ch.Config = .ok cfg)
    (hk : getAPIKey c cfg ch.ResourceNamespace = .ok apiKey)
    (hmr : makeRequest p s "GET" (presentQuery apiKey (removeDOT ch.ResolvedFQDN) ch.Key) =
      (s2, .ok b)) :
    Present c u p s ch = (s2, .ok ()) := by
  simp [Present, hc, hk, hmr]

theorem CleanUp_loadConfig_error {σ : Type} {c : dodeDNSProviderSolver}
    {u : String → Except String dodeDNSProviderConfig} {p : Provider σ} {s : σ}
    {ch : ChallengeRequest} {e : String} (h : loadConfig u ch.Config = .error e) :
    CleanUp c u p s ch = (s, .error e) := by
  simp [CleanUp, h]

theorem CleanUp_getAPIKey_error {σ : Type} {c : dodeDNSProviderSolver}
    {u : String → Except String dodeDNSProviderConfig} {p : Provider σ} {s : σ}
    {ch : ChallengeRequest} {cfg : dodeDNSProviderConfig} {e : String}
    (hc : loadConfig u ch.Config = .ok cfg)
    (hk : getAPIKey c cfg ch.ResourceNamespace = .error e) :
    CleanUp c u p s ch = (s, .error e) := by
  simp [CleanUp, hc, hk]

theorem CleanUp_request_error {σ : Type} {c : dodeDNSProviderSolver}
    {u : String → Except String dodeDNSProviderConfig} {p : Provider σ} {s s2 : σ}
    {ch : ChallengeRequest} {cfg : dodeDNSProviderConfig} {apiKey e : String}
    (hc : loadConfig u ch.Config = .ok cfg)
    (hk : getAPIKey c cfg ch.ResourceNamespace = .ok apiKey)
    (hmr : makeRequest p s "GET" (cleanUpQuery apiKey (removeDOT ch.ResolvedFQDN)) =
      (s2, .error e)) :
    CleanUp c u p s ch = (s2, .error e) := by
  simp [CleanUp, hc, hk, hmr]

theorem CleanUp_request_ok {σ : Type} {c : dodeDNSProviderSolver}
    {u : String → Except String dodeDNSProviderConfig} {p : Provider σ} {s s2 : σ}
    {ch : ChallengeRequest} {cfg : dodeDNSProviderConfig} {apiKey : String} {b : Bool}
    (hc : loadConfig u ch.Config = .ok cfg)
    (hk : getAPIKey c cfg ch.ResourceNamespace = .ok apiKey)
    (hmr : makeRequest p s "GET" (cleanUpQuery apiKey (removeDOT ch.ResolvedFQDN)) =
      (s2, .ok b)) :
    CleanUp c u p s ch = (s2, .ok ()) := by
  simp [CleanUp, hc, hk, hmr]

theorem request_phase_outcome {σ : Type} (p : Provider σ) (s : σ) (m uri : String) :
    ((∃ b, (makeRequest p s m uri).2 = .ok b) ↔
      ∃ st r, (p.step s (DodeAPIURL ++ uri)).2 = .response st (.ok r) ∧ r.Success = true) ∧
    (∀ st r, (p.step s (DodeAPIURL ++ uri)).2 = .response st (.ok r) → r.Success = false →
      ∃ msg, (makeRequest p s m uri).2 = .error msg ∧ r.Error.data <:+: msg.data) ∧
    (∀ e, (p.step s (DodeAPIURL ++ uri)).2 = .transportError e →
      ∃ msg, (makeRequest p s m uri).2 = .error msg ∧ e.data <:+: msg.data) ∧
    (∀ st e, (p.step s (DodeAPIURL ++ uri)).2 = .response st (.error e) →
      (makeRequest p s m uri).2 = .error e) := by
  rcases hstep : p.step s (DodeAPIURL ++ uri) with ⟨s', res⟩
  refine ⟨⟨?_, ?_⟩, ?_, ?_, ?_⟩
  · rintro ⟨b, hb⟩
    cases res with
    | transportError e =>
      rw [makeRequest_transport hstep] at hb
      simp at hb
    | response st body =>
      cases body with
      | error e =>
        rw [makeRequest_decode hstep] at hb
        simp at hb
      | ok r =>
        cases hr : r.Success with
        | false =>
          rw [makeRequest_rejected hstep hr] at hb
          simp at hb
        | true => exact ⟨st, r, rfl, hr⟩
  · rintro ⟨st, r, hres, hr⟩
    have hres' : res = HttpResult.response st (Except.ok r) := hres
    subst hres'
    exact ⟨true, by rw [makeRequest_success hstep hr]⟩
  · intro st r hres hr
    have hres' : res = HttpResult.response st (Except.ok r) := hres
    subst hres'
    refine ⟨"DODE API error for " ++ m ++ " \"" ++ uri ++ "\" " ++ r.Error,
      by rw [makeRequest_rejected hstep hr], ?_⟩
    apply isInfix_data_right
    exact isInfix_data_refl _
  · intro e hres
    have hres' : res = HttpResult.transportError e := hres
    subst hres'
    refine ⟨"Error querying DODE API for " ++ m ++ " \"" ++ (DodeAPIURL ++ uri) ++
      "\" -> " ++ e, by rw [makeRequest_transport hstep], ?_⟩
    apply isInfix_data_right
    exact isInfix_data_refl _
  · intro st e hres
    have hres' : res = HttpResult.response st (Except.error e) := hres
    subst hres'
    rw [makeRequest_decode hstep]

theorem Present_ok_iff {σ : Type} {c : dodeDNSProviderSolver}
    {u : String → Except String dodeDNSProviderConfig} {p : Provider σ} {s : σ}
    {ch : ChallengeRequest} {cfg : dodeDNSProviderConfig} {apiKey : String}
    (hc : loadConfig u ch.Config = .ok cfg)
    (hk : getAPIKey c cfg ch.ResourceNamespace = .ok apiKey) :
    (Present c u p s ch).2 = .ok () ↔
      ∃ b, (makeRequest p s "GET"
        (presentQuery apiKey (removeDOT ch.ResolvedFQDN) ch.Key)).2 = .ok b := by
  rcases hmr : makeRequest p s "GET" (presentQuery apiKey (removeDOT ch.ResolvedFQDN) ch.Key)
    with ⟨s2, r2⟩
  cases r2 with
  | error e => rw [Present_request_error hc hk hmr] ; simp
  | ok b => rw [Present_request_ok hc hk hmr] ; simp

theorem Present_error_iff {σ : Type} {c : dodeDNSProviderSolver}
    {u : String → Except String dodeDNSProviderConfig} {p : Provider σ} {s : σ}
    {ch : ChallengeRequest} {cfg : dodeDNSProviderConfig} {apiKey : String}
    (hc : loadConfig u ch.Config = .ok cfg)
    (hk : getAPIKey c cfg ch.ResourceNamespace = .ok apiKey) (e : String) :
    (Present c u p s ch).2 = .error e ↔
      (makeRequest p s "GET"
        (presentQuery apiKey (removeDOT ch.ResolvedFQDN) ch.Key)).2 = .error e := by
  rcases hmr : makeRequest p s "GET" (presentQuery apiKey (removeDOT ch.ResolvedFQDN) ch.Key)
    with ⟨s2, r2⟩
  cases r2 with
  | error e' => rw [Present_request_error hc hk hmr] ; simp
  | ok b => rw [Present_request_ok hc hk hmr] ; simp

theorem CleanUp_ok_iff {σ : Type} {c : dodeDNSProviderSolver}
    {u : String → Except String dodeDNSProviderConfig} {p : Provider σ} {s : σ}
    {ch : ChallengeRequest} {cfg : dodeDNSProviderConfig} {apiKey : String}
    (hc : loadConfig u ch.Config = .ok cfg)
    (hk : getAPIKey c cfg ch.ResourceNamespace = .ok apiKey) :
    (CleanUp c u p s ch).2 = .ok () ↔
      ∃ b, (makeRequest p s "GET"
        (cleanUpQuery apiKey (removeDOT ch.ResolvedFQDN))).2 = .ok b := by
  rcases hmr : makeRequest p s "GET" (cleanUpQuery apiKey (removeDOT ch.ResolvedFQDN))
    with ⟨s2, r2⟩
  cases r2 with
  | error e => rw [CleanUp_request_error hc hk hmr] ; simp
  | ok b => rw [CleanUp_request_ok hc hk hmr] ; simp

theorem CleanUp_error_iff {σ : Type} {c : dodeDNSProviderSolver}
    {u : String → Except String dodeDNSProviderConfig} {p : Provider σ} {s : σ}
    {ch : ChallengeRequest} {cfg : dodeDNSProviderConfig} {apiKey : String}
    (hc : loadConfig u ch.Config = .ok cfg)
    (hk : getAPIKey c cfg ch.ResourceNamespace = .ok apiKey) (e : String) :
    (CleanUp c u p s ch).2 = .error e ↔
      (makeRequest p s "GET"
        (cleanUpQuery apiKey (removeDOT ch.ResolvedFQDN))).2 = .error e := by
  rcases hmr : makeRequest p s "GET" (cleanUpQuery apiKey (removeDOT ch.ResolvedFQDN))
    with ⟨s2, r2⟩
  cases r2 with
  | error e' => rw [CleanUp_request_error hc hk hmr] ; simp
  | ok b => rw [CleanUp_request_ok hc hk hmr] ; simp

/-! ### The interpolated query strings contain their arguments verbatim -/

theorem token_isInfix_presentQuery (t d v : String) :
    t.data <:+: (presentQuery t d v).data := by
  show t.data <:+: ("?token=" ++ t ++ "&domain=" ++ d ++ "&value=" ++ v).data
  apply isInfix_data_left
  apply isInfix_data_left
  apply isInfix_data_left
  apply isInfix_data_left
  apply isInfix_data_right
  exact isInfix_data_refl t

theorem domain_isInfix_presentQuery (t d v : String) :
    d.data <:+: (presentQuery t d v).data := by
  show d.data <:+: ("?token=" ++ t ++ "&domain=" ++ d ++ "&value=" ++ v).data
  apply isInfix_data_left
  apply isInfix_data_left
  apply isInfix_data_right
  exact isInfix_data_refl d

theorem value_isInfix_presentQuery (t d v : String) :
    v.data <:+: (presentQuery t d v).data := by
  show v.data <:+: ("?token=" ++ t ++ "&domain=" ++ d ++ "&value=" ++ v).data
  apply isInfix_data_right
  exact isInfix_data_refl v

theorem token_isInfix_cleanUpQuery (t d : String) :
    t.data <:+: (cleanUpQuery t d).data := by
  show t.data <:+: ("?token=" ++ t ++ "&domain=" ++ d ++ "&action=delete").data
  apply isInfix_data_left
  apply isInfix_data_left
  apply isInfix_data_left
  apply isInfix_data_right
  exact isInfix_data_refl t

theorem domain_isInfix_cleanUpQuery (t d : String) :
    d.data <:+: (cleanUpQuery t d).data := by
  show d.data <:+: ("?token=" ++ t ++ "&domain=" ++ d ++ "&action=delete").data
  apply isInfix_data_left
  apply isInfix_data_right
  exact isInfix_data_refl d

/-! ### C1: response interpretation -/

/-- C1: with the configuration decoded and the credential resolved,
`Present` (and `CleanUp`) succeeds exactly when the decoded response body
has `success=true`; a `success=false` body yields a hard error containing
the provider's reported error text, a transport failure yields a hard
error containing the transport error text, and a body that fails to
decode yields a hard error (the decoder's message). -/
theorem present_cleanUp_response_interpretation {σ : Type} {c : dodeDNSProviderSolver}
    {u : String → Except String dodeDNSProviderConfig} {p : Provider σ} {s : σ}
    {ch : ChallengeRequest} {cfg : dodeDNSProviderConfig} {apiKey : String}
    (hc : loadConfig u ch.Config = .ok cfg)
    (hk : getAPIKey c cfg ch.ResourceNamespace = .ok apiKey) :
    ((Present c u p s ch).2 = .ok () ↔
      ∃ st r, (p.step s (DodeAPIURL ++
        presentQuery apiKey (removeDOT ch.ResolvedFQDN) ch.Key)).2 =
          .response st (.ok r) ∧ r.Success = true) ∧
    (∀ st r, (p.step s (DodeAPIURL ++
        presentQuery apiKey (removeDOT ch.ResolvedFQDN) ch.Key)).2 =
          .response st (.ok r) → r.Success = false →
      ∃ m, (Present c u p s ch).2 = .error m ∧ r.Error.data <:+: m.data) ∧
    (∀ e, (p.step s (DodeAPIURL ++
        presentQuery apiKey (removeDOT ch.ResolvedFQDN) ch.Key)).2 =
          .transportError e →
      ∃ m, (Present c u p s ch).2 = .error m ∧ e.data <:+: m.data) ∧
    (∀ st e, (p.step s (DodeAPIURL ++
        presentQuery apiKey (removeDOT ch.ResolvedFQDN) ch.Key)).2 =
          .response st (.error e) →
      (Present c u p s ch).2 = .error e) ∧
    ((CleanUp c u p s ch).2 = .ok () ↔
      ∃ st r, (p.step s (DodeAPIURL ++
        cleanUpQuery apiKey (removeDOT ch.ResolvedFQDN))).2 =
          .response st (.ok r) ∧ r.Success = true) ∧
    (∀ st r, (p.step s (DodeAPIURL ++
        cleanUpQuery apiKey (removeDOT ch.ResolvedFQDN))).2 =
          .response st (.ok r) → r.Success = false →
      ∃ m, (CleanUp c u p s ch).2 = .error m ∧ r.Error.data <:+: m.data) ∧
    (∀ e, (p.step s (DodeAPIURL ++
        cleanUpQuery apiKey (removeDOT ch.ResolvedFQDN))).2 =
          .transportError e →
      ∃ m, (CleanUp c u p s ch).2 = .error m ∧ e.data <:+: m.data) ∧
    (∀ st e, (p.step s (DodeAPIURL ++
        cleanUpQuery apiKey (removeDOT ch.ResolvedFQDN))).2 =
          .response st (.error e) →
      (CleanUp c u p s ch).2 = .error e) := by
  obtain ⟨hiffP, hrejP, htrP, hdecP⟩ :=
    request_phase_outcome p s "GET" (presentQuery apiKey (removeDOT ch.ResolvedFQDN) ch.Key)
  obtain ⟨hiffC, hrejC, htrC, hdecC⟩ :=
    request_phase_outcome p s "GET" (cleanUpQuery apiKey (removeDOT ch.ResolvedFQDN))
  refine ⟨(Present_ok_iff hc hk).trans hiffP, ?_, ?_, ?_,
    (CleanUp_ok_iff hc hk).trans hiffC, ?_, ?_, ?_⟩
  · intro st r h hr
    obtain ⟨msg, hmsg, hinf⟩ := hrejP st r h hr
    exact ⟨msg, (Present_error_iff hc hk msg).mpr hmsg, hinf⟩
  · intro e h
    obtain ⟨msg, hmsg, hinf⟩ := htrP e h
    exact ⟨msg, (Present_error_iff hc hk msg).mpr hmsg, hinf⟩
  · intro st e h
    exact (Present_error_iff hc hk e).mpr (hdecP st e h)
  · intro st r h hr
    obtain ⟨msg, hmsg, hinf⟩ := hrejC st r h hr
    exact ⟨msg, (CleanUp_error_iff hc hk msg).mpr hmsg, hinf⟩
  · intro e h
    obtain ⟨msg, hmsg, hinf⟩ := htrC e h
    exact ⟨msg, (CleanUp_error_iff hc hk msg).mpr hmsg, hinf⟩
  · intro st e h
    exact (CleanUp_error_iff hc hk e).mpr (hdecC st e h)

/-- C1 witness: against a provider answering
`success=false, error=rate limited`, `Present` fails with an error whose
text includes `rate limited`; against one answering `success=true`, it
returns success. -/
theorem present_cleanUp_response_interpretation_witness :
    (∃ m, (Present solverW unmarshalW provRejected () chW).2 = .error m ∧
      "rate limited".data <:+: m.data) ∧
    (Present solverW unmarshalW provOK () chW).2 = .ok () :=
  ⟨(present_cleanUp_response_interpretation
        (rfl : loadConfig unmarshalW chW.Config = .ok cfgW)
        (rfl : getAPIKey solverW cfgW chW.ResourceNamespace = .ok "tok123")).2.1
      200 ⟨false, "rate limited"⟩ rfl rfl,
    (present_cleanUp_response_interpretation
        (rfl : loadConfig unmarshalW chW.Config = .ok cfgW)
        (rfl : getAPIKey solverW cfgW chW.ResourceNamespace = .ok "tok123")).1.mpr
      ⟨200, ⟨true, ""⟩, rfl, rfl⟩⟩

theorem makeRequest_recorder_fst (f : String → HttpResult) (log : List String)
    (m uri : String) :
    (makeRequest (recorder f) log m uri).1 = log ++ [DodeAPIURL ++ uri] := by
  have hstep : (recorder f).step log (DodeAPIURL ++ uri) =
      (log ++ [DodeAPIURL ++ uri], f (DodeAPIURL ++ uri)) := rfl
  cases hres : f (DodeAPIURL ++ uri) with
  | transportError e =>
    rw [hres] at hstep
    rw [makeRequest_transport hstep]
  | response st body =>
    rw [hres] at hstep
    cases body with
    | error e => rw [makeRequest_decode hstep]
    | ok r =>
      cases hr : r.Success with
      | true => rw [makeRequest_success hstep hr]
      | false => rw [makeRequest_rejected hstep hr]

theorem Present_fst {σ : Type} {c : dodeDNSProviderSolver}
    {u : String → Except String dodeDNSProviderConfig} {p : Provider σ} {s : σ}
    {ch : ChallengeRequest} {cfg : dodeDNSProviderConfig} {apiKey : String}
    (hc : loadConfig u ch.Config = .ok cfg)
    (hk : getAPIKey c cfg ch.ResourceNamespace = .ok apiKey) :
    (Present c u p s ch).1 =
      (makeRequest p s "GET" (presentQuery apiKey (removeDOT ch.ResolvedFQDN) ch.Key)).1 := by
  rcases hmr : makeRequest p s "GET" (presentQuery apiKey (removeDOT ch.ResolvedFQDN) ch.Key)
    with ⟨s2, r2⟩
  cases r2 with
  | error e => rw [Present_request_error hc hk hmr]
  | ok b => rw [Present_request_ok hc hk hmr]

theorem CleanUp_fst {σ : Type} {c : dodeDNSProviderSolver}
    {u : String → Except String dodeDNSProviderConfig} {p : Provider σ} {s : σ}
    {ch : ChallengeRequest} {cfg : dodeDNSProviderConfig} {apiKey : String}
    (hc : loadConfig u ch.Config = .ok cfg)
    (hk : getAPIKey c cfg ch.ResourceNamespace = .ok apiKey) :
    (CleanUp c u p s ch).1 =
      (makeRequest p s "GET" (cleanUpQuery apiKey (removeDOT ch.ResolvedFQDN))).1 := by
  rcases hmr : makeRequest p s "GET" (cleanUpQuery apiKey (removeDOT ch.ResolvedFQDN))
    with ⟨s2, r2⟩
  cases r2 with
  | error e => rw [CleanUp_request_error hc hk hmr]
  | ok b => rw [CleanUp_request_ok hc hk hmr]

/-! ### C2: wire format of the outgoing requests -/

/-- C2: with the credential resolved, `Present` issues exactly one GET to
the fixed endpoint with query `?token=<credential>&domain=<normalized
fqdn>&value=<txt value>`, `CleanUp` issues exactly one GET with query
`?token=<credential>&domain=<normalized fqdn>&action=delete`, and the
request issued by `CleanUp` does not depend on the TXT value at all. -/
theorem present_cleanUp_wire_format {c : dodeDNSProviderSolver}
    {u : String → Except String dodeDNSProviderConfig}
    {ch : ChallengeRequest} {cfg : dodeDNSProviderConfig} {apiKey : String}
    (f : String → HttpResult) (log : List String)
    (hc : loadConfig u ch.Config = .ok cfg)
    (hk : getAPIKey c cfg ch.ResourceNamespace = .ok apiKey) :
    (Present c u (recorder f) log ch).1 =
      log ++ [DodeAPIURL ++ presentQuery apiKey (removeDOT ch.ResolvedFQDN) ch.Key] ∧
    (CleanUp c u (recorder f) log ch).1 =
      log ++ [DodeAPIURL ++ cleanUpQuery apiKey (removeDOT ch.ResolvedFQDN)] ∧
    (∀ v₁ v₂ : String,
      CleanUp c u (recorder f) log
        ⟨ch.Config, ch.ResolvedFQDN, v₁, ch.ResourceNamespace⟩ =
      CleanUp c u (recorder f) log
        ⟨ch.Config, ch.ResolvedFQDN, v₂, ch.ResourceNamespace⟩) := by
  refine ⟨?_, ?_, fun v₁ v₂ => rfl⟩
  · rw [Present_fst hc hk, makeRequest_recorder_fst]
  · rw [CleanUp_fst hc hk, makeRequest_recorder_fst]

/-- C2 witness: the theorem applied to the concrete request `chW` with an
empty request log. -/
theorem present_cleanUp_wire_format_witness :
    (Present solverW unmarshalW recOK [] chW).1 =
      [] ++ [DodeAPIURL ++ presentQuery "tok123" (removeDOT chW.ResolvedFQDN) chW.Key] ∧
    (CleanUp solverW unmarshalW recOK [] chW).1 =
      [] ++ [DodeAPIURL ++ cleanUpQuery "tok123" (removeDOT chW.ResolvedFQDN)] ∧
    (∀ v₁ v₂ : String,
      CleanUp solverW unmarshalW recOK []
        ⟨chW.Config, chW.ResolvedFQDN, v₁, chW.ResourceNamespace⟩ =
      CleanUp solverW unmarshalW recOK []
        ⟨chW.Config, chW.ResolvedFQDN, v₂, chW.ResourceNamespace⟩) :=
  present_cleanUp_wire_format (fun _ => .response 200 (.ok ⟨true, ""⟩)) []
    (rfl : loadConfig unmarshalW chW.Config = .ok cfgW)
    (rfl : getAPIKey solverW cfgW chW.ResourceNamespace = .ok "tok123")

/-! ### C8: no request before a pre-request error -/

/-- C8: if configuration decoding or credential resolution fails, both
`Present` and `CleanUp` return that error and leave the provider state
untouched — no HTTP request is issued. -/
theorem no_request_on_pre_request_error {σ : Type} (c : dodeDNSProviderSolver)
    (u : String → Except String dodeDNSProviderConfig) (p : Provider σ) (s : σ)
    (ch : ChallengeRequest) :
    (∀ e, loadConfig u ch.Config = .error e →
      Present c u p s ch = (s, .error e) ∧ CleanUp c u p s ch = (s, .error e)) ∧
    (∀ cfg e, loadConfig u ch.Config = .ok cfg →
      getAPIKey c cfg ch.ResourceNamespace = .error e →
      Present c u p s ch = (s, .error e) ∧ CleanUp c u p s ch = (s, .error e)) :=
  ⟨fun _ h => ⟨Present_loadConfig_error h, CleanUp_loadConfig_error h⟩,
    fun _ _ hc hk => ⟨Present_getAPIKey_error hc hk, CleanUp_getAPIKey_error hc hk⟩⟩

/-- C8 witness: a rejecting decoder and an empty secret store both stop
`Present` and `CleanUp` before any request, leaving the state `()` as
is. -/
theorem no_request_on_pre_request_error_witness :
    (Present solverNone badUnmarshal provOK () chW =
        ((), .error ("error decoding solver config: " ++ "invalid character")) ∧
      CleanUp solverNone badUnmarshal provOK () chW =
        ((), .error ("error decoding solver config: " ++ "invalid character"))) ∧
    (Present solverNone unmarshalW provOK () chW =
        ((), .error ("unable to get secret `" ++ "dode-secret" ++ "`; secrets \"" ++
          "dode-secret" ++ "\" not found")) ∧
      CleanUp solverNone unmarshalW provOK () chW =
        ((), .error ("unable to get secret `" ++ "dode-secret" ++ "`; secrets \"" ++
          "dode-secret" ++ "\" not found"))) :=
  ⟨(no_request_on_pre_request_error solverNone badUnmarshal provOK () chW).1 _ rfl,
    (no_request_on_pre_request_error solverNone unmarshalW provOK () chW).2 cfgW _ rfl rfl⟩

/-! ### C9: the HTTP status code is never inspected -/

/-- C9: the interpretation of a provider response depends only on the
decoded body, never on the HTTP status code: two providers answering with
the same body but different status codes yield the same `Present`
outcome, and a `success=true` body is a success outcome for every status
code (including 4xx/5xx). -/
theorem status_code_ignored {σ : Type} {c : dodeDNSProviderSolver}
    {u : String → Except String dodeDNSProviderConfig} {p₁ p₂ : Provider σ} {s : σ}
    {ch : ChallengeRequest} {cfg : dodeDNSProviderConfig} {apiKey : String}
    (hc : loadConfig u ch.Config = .ok cfg)
    (hk : getAPIKey c cfg ch.ResourceNamespace = .ok apiKey)
    {s₁ s₂ : σ} {st₁ st₂ : Nat} {body : Except String APIResponse}
    (h₁ : p₁.step s (DodeAPIURL ++ presentQuery apiKey (removeDOT ch.ResolvedFQDN) ch.Key) =
      (s₁, .response st₁ body))
    (h₂ : p₂.step s (DodeAPIURL ++ presentQuery apiKey (removeDOT ch.ResolvedFQDN) ch.Key) =
      (s₂, .response st₂ body)) :
    (Present c u p₁ s ch).2 = (Present c u p₂ s ch).2 ∧
    (∀ r, body = .ok r → r.Success = true → (Present c u p₁ s ch).2 = .ok ()) := by
  cases body with
  | error e =>
    have e₁ : (Present c u p₁ s ch).2 = .error e :=
      (Present_error_iff hc hk e).mpr (by rw [makeRequest_decode h₁])
    have e₂ : (Present c u p₂ s ch).2 = .error e :=
      (Present_error_iff hc hk e).mpr (by rw [makeRequest_decode h₂])
    refine ⟨by rw [e₁, e₂], ?_⟩
    intro r hre
    simp at hre
  | ok r =>
    cases hr : r.Success with
    | true =>
      have e₁ : (Present c u p₁ s ch).2 = .ok () :=
        (Present_ok_iff hc hk).mpr ⟨true, by rw [makeRequest_success h₁ hr]⟩
      have e₂ : (Present c u p₂ s ch).2 = .ok () :=
        (Present_ok_iff hc hk).mpr ⟨true, by rw [makeRequest_success h₂ hr]⟩
      exact ⟨by rw [e₁, e₂], fun _ _ _ => e₁⟩
    | false =>
      have e₁ : (Present c u p₁ s ch).2 = .error ("DODE API error for " ++ "GET" ++ " \"" ++
          presentQuery apiKey (removeDOT ch.ResolvedFQDN) ch.Key ++ "\" " ++ r.Error) :=
        (Present_error_iff hc hk _).mpr (by rw [makeRequest_rejected h₁ hr])
      have e₂ : (Present c u p₂ s ch).2 = .error ("DODE API error for " ++ "GET" ++ " \"" ++
          presentQuery apiKey (removeDOT ch.ResolvedFQDN) ch.Key ++ "\" " ++ r.Error) :=
        (Present_error_iff hc hk _).mpr (by rw [makeRequest_rejected h₂ hr])
      refine ⟨by rw [e₁, e₂], ?_⟩
      intro r' hre hr'
      cases hre
      rw [hr] at hr'
      simp at hr'

/-- C9 witness: a 404 response with body `success=true` is treated
exactly like a 200 response with the same body, and is a success. -/
theorem status_code_ignored_witness :
    (Present solverW unmarshalW prov404 () chW).2 =
      (Present solverW unmarshalW provOK () chW).2 ∧
    (∀ r, (Except.ok ⟨true, ""⟩ : Except String APIResponse) = .ok r →
      r.Success = true → (Present solverW unmarshalW prov404 () chW).2 = .ok ()) :=
  status_code_ignored
    (rfl : loadConfig unmarshalW chW.Config = .ok cfgW)
    (rfl : getAPIKey solverW cfgW chW.ResourceNamespace = .ok "tok123")
    (rfl : prov404.step ()
      (DodeAPIURL ++ presentQuery "tok123" (removeDOT chW.ResolvedFQDN) chW.Key) =
      ((), .response 404 (.ok ⟨true, ""⟩)))
    (rfl : provOK.step ()
      (DodeAPIURL ++ presentQuery "tok123" (removeDOT chW.ResolvedFQDN) chW.Key) =
      ((), .response 200 (.ok ⟨true, ""⟩)))

/-! ### C6: idempotence of Present against an idempotent provider -/

theorem makeRequest_idem {σ : Type} {p : Provider σ} (hp : ProviderIdempotent p)
    (s : σ) (m uri : String) :
    makeRequest p (makeRequest p s m uri).1 m uri = makeRequest p s m uri := by
  rcases hstep : p.step s (DodeAPIURL ++ uri) with ⟨s', res⟩
  have h2 : p.step s' (DodeAPIURL ++ uri) = (s', res) := by
    have h := hp s (DodeAPIURL ++ uri)
    rw [hstep] at h
    exact h
  cases res with
  | transportError e =>
    rw [makeRequest_transport hstep]
    exact makeRequest_transport h2
  | response st body =>
    cases body with
    | error e =>
      rw [makeRequest_decode hstep]
      exact makeRequest_decode h2
    | ok r =>
      cases hr : r.Success with
      | true =>
        rw [makeRequest_success hstep hr]
        exact makeRequest_success h2 hr
      | false =>
        rw [makeRequest_rejected hstep hr]
        exact makeRequest_rejected h2 hr

/-- C6: against a provider whose repeated identical request changes
nothing, calling `Present` a second time with identical arguments from
the state left by the first call yields exactly the same state and
result as the first call: the two calls are observably one. -/
theorem present_idempotent {σ : Type} (c : dodeDNSProviderSolver)
    (u : String → Except String dodeDNSProviderConfig) (p : Provider σ)
    (s : σ) (ch : ChallengeRequest) (hp : ProviderIdempotent p) :
    Present c u p (Present c u p s ch).1 ch = Present c u p s ch := by
  cases hcfg : loadConfig u ch.Config with
  | error e =>
    have h1 : Present c u p s ch = (s, .error e) := Present_loadConfig_error hcfg
    rw [h1]
    exact Present_loadConfig_error hcfg
  | ok cfg =>
    cases hkey : getAPIKey c cfg ch.ResourceNamespace with
    | error e =>
      have h1 : Present c u p s ch = (s, .error e) := Present_getAPIKey_error hcfg hkey
      rw [h1]
      exact Present_getAPIKey_error hcfg hkey
    | ok apiKey =>
      have hmr2 := makeRequest_idem hp s "GET"
        (presentQuery apiKey (removeDOT ch.ResolvedFQDN) ch.Key)
      rcases hmr : makeRequest p s "GET" (presentQuery apiKey (removeDOT ch.ResolvedFQDN) ch.Key)
        with ⟨s2, r2⟩
      rw [hmr] at hmr2
      cases r2 with
      | error e =>
        rw [Present_request_error hcfg hkey hmr]
        exact Present_request_error hcfg hkey hmr2
      | ok b =>
        rw [Present_request_ok hcfg hkey hmr]
        exact Present_request_ok hcfg hkey hmr2

/-- C6 witness: the theorem applied to the always-succeeding concrete
provider, which is idempotent. -/
theorem present_idempotent_witness :
    Present solverW unmarshalW provOK (Present solverW unmarshalW provOK () chW).1 chW =
      Present solverW unmarshalW provOK () chW :=
  present_idempotent solverW unmarshalW provOK () chW (fun _ _ => rfl)

/-! ### C7: credential exposure in error messages -/

/-- C7 counterexample: `tok123`, the credential resolved for `chW`, does
appear verbatim in the error `Present` returns on a transport failure
(the message embeds the full request URL, whose query carries
`token=tok123`). -/
theorem present_error_contains_credential :
    getAPIKey solverW cfgW chW.ResourceNamespace = .ok "tok123" ∧
    (Present solverW unmarshalW provTransport () chW).2 =
      .error ("Error querying DODE API for " ++ "GET" ++ " \"" ++
        (DodeAPIURL ++ presentQuery "tok123" (removeDOT chW.ResolvedFQDN) chW.Key) ++
        "\" -> " ++ "connection refused") ∧
    "tok123".data <:+:
      ("Error querying DODE API for " ++ "GET" ++ " \"" ++
        (DodeAPIURL ++ presentQuery "tok123" (removeDOT chW.ResolvedFQDN) chW.Key) ++
        "\" -> " ++ "connection refused").data :=
  ⟨rfl, rfl, by
    apply isInfix_data_left
    apply isInfix_data_left
    apply isInfix_data_right
    apply isInfix_data_right
    exact token_isInfix_presentQuery "tok123" (removeDOT chW.ResolvedFQDN) chW.Key⟩

/-- C7 (amended): errors raised before the HTTP request carry resource
identifiers only, but every error produced by the HTTP exchange itself —
transport failure or provider rejection, in `Present` or `CleanUp` —
embeds the request URI and therefore contains the resolved credential
verbatim. -/
theorem request_errors_embed_credential {σ : Type} {c : dodeDNSProviderSolver}
    {u : String → Except String dodeDNSProviderConfig} {p : Provider σ} {s : σ}
    {ch : ChallengeRequest} {cfg : dodeDNSProviderConfig} {apiKey : String}
    (hc : loadConfig u ch.Config = .ok cfg)
    (hk : getAPIKey c cfg ch.ResourceNamespace = .ok apiKey) :
    (∀ e, (p.step s (DodeAPIURL ++
        presentQuery apiKey (removeDOT ch.ResolvedFQDN) ch.Key)).2 = .transportError e →
      ∃ m, (Present c u p s ch).2 = .error m ∧ apiKey.data <:+: m.data) ∧
    (∀ st r, (p.step s (DodeAPIURL ++
        presentQuery apiKey (removeDOT ch.ResolvedFQDN) ch.Key)).2 =
          .response st (.ok r) → r.Success = false →
      ∃ m, (Present c u p s ch).2 = .error m ∧ apiKey.data <:+: m.data) ∧
    (∀ e, (p.step s (DodeAPIURL ++
        cleanUpQuery apiKey (removeDOT ch.ResolvedFQDN))).2 = .transportError e →
      ∃ m, (CleanUp c u p s ch).2 = .error m ∧ apiKey.data <:+: m.data) ∧
    (∀ st r, (p.step s (DodeAPIURL ++
        cleanUpQuery apiKey (removeDOT ch.ResolvedFQDN))).2 =
          .response st (.ok r) → r.Success = false →
      ∃ m, (CleanUp c u p s ch).2 = .error m ∧ apiKey.data <:+: m.data) := by
  refine ⟨?_, ?_, ?_, ?_⟩
  · intro e hres
    rcases hstep : p.step s (DodeAPIURL ++ presentQuery apiKey (removeDOT ch.ResolvedFQDN) ch.Key)
      with ⟨s', res⟩
    rw [hstep] at hres
    have hres' : res = HttpResult.transportError e := hres
    subst hres'
    refine ⟨_, (Present_error_iff hc hk _).mpr (by rw [makeRequest_transport hstep]), ?_⟩
    apply isInfix_data_left
    apply isInfix_data_left
    apply isInfix_data_right
    apply isInfix_data_right
    exact token_isInfix_presentQuery apiKey (removeDOT ch.ResolvedFQDN) ch.Key
  · intro st r hres hr
    rcases hstep : p.step s (DodeAPIURL ++ presentQuery apiKey (removeDOT ch.ResolvedFQDN) ch.Key)
      with ⟨s', res⟩
    rw [hstep] at hres
    have hres' : res = HttpResult.response st (Except.ok r) := hres
    subst hres'
    refine ⟨_, (Present_error_iff hc hk _).mpr (by rw [makeRequest_rejected hstep hr]), ?_⟩
    apply isInfix_data_left
    apply isInfix_data_left
    apply isInfix_data_right
    exact token_isInfix_presentQuery apiKey (removeDOT ch.ResolvedFQDN) ch.Key
  · intro e hres
    rcases hstep : p.step s (DodeAPIURL ++ cleanUpQuery apiKey (removeDOT ch.ResolvedFQDN))
      with ⟨s', res⟩
    rw [hstep] at hres
    have hres' : res = HttpResult.transportError e := hres
    subst hres'
    refine ⟨_, (CleanUp_error_iff hc hk _).mpr (by rw [makeRequest_transport hstep]), ?_⟩
    apply isInfix_data_left
    apply isInfix_data_left
    apply isInfix_data_right
    apply isInfix_data_right
    exact token_isInfix_cleanUpQuery apiKey (removeDOT ch.ResolvedFQDN)
  · intro st r hres hr
    rcases hstep : p.step s (DodeAPIURL ++ cleanUpQuery apiKey (removeDOT ch.ResolvedFQDN))
      with ⟨s', res⟩
    rw [hstep] at hres
    have hres' : res = HttpResult.response st (Except.ok r) := hres
    subst hres'
    refine ⟨_, (CleanUp_error_iff hc hk _).mpr (by rw [makeRequest_rejected hstep hr]), ?_⟩
    apply isInfix_data_left
    apply isInfix_data_left
    apply isInfix_data_right
    exact token_isInfix_cleanUpQuery apiKey (removeDOT ch.ResolvedFQDN)

/-- C7 witness: the amended theorem applied at the concrete failing
transport, exhibiting the credential inside the returned error. -/
theorem request_errors_embed_credential_witness :
    ∃ m, (Present solverW unmarshalW provTransport () chW).2 = .error m ∧
      "tok123".data <:+: m.data :=
  (request_errors_embed_credential
      (rfl : loadConfig unmarshalW chW.Config = .ok cfgW)
      (rfl : getAPIKey solverW cfgW chW.ResourceNamespace = .ok "tok123")).1
    "connection refused" rfl

/-! ### C10: raw interpolation of the query strings -/

/-- C10: the query strings are built by raw interpolation with no URL
encoding — credential, domain and TXT value appear verbatim (so
query-significant characters like `&` and `=` pass through), and the
resulting query is ambiguous: two different (credential, domain) pairs
can yield the identical request string. -/
theorem raw_query_interpolation :
    (∀ t d v : String, t.data <:+: (presentQuery t d v).data ∧
      d.data <:+: (presentQuery t d v).data ∧
      v.data <:+: (presentQuery t d v).data) ∧
    (∀ t d : String, t.data <:+: (cleanUpQuery t d).data ∧
      d.data <:+: (cleanUpQuery t d).data) ∧
    (presentQuery "a" "m&domain=n" "v" = presentQuery "a&domain=m" "n" "v" ∧
      ("a" : String) ≠ "a&domain=m" ∧ ("m&domain=n" : String) ≠ "n") := by
  refine ⟨fun t d v => ⟨token_isInfix_presentQuery t d v,
      domain_isInfix_presentQuery t d v, value_isInfix_presentQuery t d v⟩,
    fun t d => ⟨token_isInfix_cleanUpQuery t d, domain_isInfix_cleanUpQuery t d⟩,
    by decide, by decide, by decide⟩
